import Mathlib

/-!
Shallow embedding of `src/src/types.rs` from the `yubihsm` crate: the typed
data model of the YubiHSM protocol layer (domains, capabilities, algorithms,
return codes, commands, log entries, object descriptors) and its conversions
to and from the raw `yubihsm-sys` representations.

Conventions of the embedding:
* Rust machine integers (`u8`, `u16`, `u32`) are modelled as `Nat` (values are
  kept in range by hypotheses or by construction); the C `yh_rc` status type is
  modelled as `Int` (its values are negative).
* A Rust `panic!` (a fatal, non-recoverable abort) is modelled as `none` of an
  outer `Option`; a recoverable `Result<T, Error>` is modelled as
  `Except String T`, with `Except.error` for `Err`/`bail!`.
* Numeric constants of the `yubihsm-sys` bindings (`yh_cmd_*`, `yh_rc_*`,
  `yh_algorithm_*`, `yh_object_type_*`, `YH_LOG_DIGEST_SIZE`) are declared
  below with doc comments starting `Modelled from the spec:` since the
  bindings crate is not among the given source files.
-/

namespace Yubihsm

/-! ## Domain set codec (`src/src/types.rs` lines 30-72) -/

/-- `Domain::new` (lines 31-37): rejects a domain of 0 or above 16 with the
validation error `"invalid domain"`, otherwise returns the wrapped value. -/
def Domain.new (domain : Nat) : Except String Nat :=
  if domain < 1 ∨ domain > 16 then Except.error "invalid domain"
  else Except.ok domain

/-- `impl From<T: IntoIterator<Item = &Domain>> for DomainParam` (lines 46-58):
fold bitwise-or of `1 << (d - 1)` over the iterated domains, starting at 0. -/
def DomainParam.fromDomains (doms : List Nat) : Nat :=
  doms.foldl (fun out d => out ||| (1 <<< (d - 1))) 0

/-- `impl From<DomainParam> for Vec<Domain>` (lines 60-72): for each bit
position `d` in `0..16` that is set in the mask, emit `Domain(d + 1)`. -/
def domainsFromParam (p : Nat) : List Nat :=
  (List.range 16).filterMap
    (fun d => if p &&& (1 <<< d) ≠ 0 then some (d + 1) else none)

lemma testBit_foldl_or (l : List Nat) (a i : Nat) :
    (l.foldl (fun out d => out ||| (1 <<< (d - 1))) a).testBit i
      = (a.testBit i || l.any fun d => d - 1 == i) := by
  induction l generalizing a with
  | nil => simp
  | cons x xs ih =>
      have h1 : (1 <<< (x - 1)).testBit i = (x - 1 == i) := by
        rw [Nat.one_shiftLeft, Nat.testBit_two_pow]
        by_cases h : x - 1 = i <;> simp [h]
      rw [List.foldl_cons, ih, List.any_cons, Nat.testBit_or, h1, Bool.or_assoc]

lemma testBit_fromDomains (l : List Nat) (i : Nat) :
    (DomainParam.fromDomains l).testBit i = l.any fun d => d - 1 == i := by
  simpa [DomainParam.fromDomains] using testBit_foldl_or l 0 i

lemma mem_domainsFromParam (p d : Nat) :
    d ∈ domainsFromParam p ↔ ∃ i < 16, p.testBit i ∧ d = i + 1 := by
  simp only [domainsFromParam, List.mem_filterMap, List.mem_range]
  constructor
  · rintro ⟨i, hi, hsome⟩
    by_cases h : p &&& (1 <<< i) ≠ 0
    · refine ⟨i, hi, ?_, ?_⟩
      · have : p &&& 2 ^ i ≠ 0 := by simpa [Nat.one_shiftLeft] using h
        simpa [Nat.and_two_pow] using this
      · have h' := hsome
        simp [h] at h'
        omega
    · simp [h] at hsome
  · rintro ⟨i, hi, hbit, rfl⟩
    refine ⟨i, hi, ?_⟩
    have : p &&& 2 ^ i ≠ 0 := by
      simp [Nat.and_two_pow, hbit]
    simp [Nat.one_shiftLeft, this]

/-- C1: for every set `S` of domain values drawn from `{1..16}` (given as any
iteration order, duplicates allowed), decoding the encoded 16-bit mask yields
exactly the set `S`: the decoded list has no duplicates and has the same
members as the input. -/
theorem domain_encode_decode_roundtrip (l : List Nat)
    (hl : ∀ d ∈ l, 1 ≤ d ∧ d ≤ 16) :
    (domainsFromParam (DomainParam.fromDomains l)).Nodup ∧
      ∀ d, d ∈ domainsFromParam (DomainParam.fromDomains l) ↔ d ∈ l := by
  constructor
  · refine List.Nodup.filterMap ?_ (List.nodup_range 16)
    intro a b c ha hb
    by_cases h1 : DomainParam.fromDomains l &&& (1 <<< a) ≠ 0 <;>
      by_cases h2 : DomainParam.fromDomains l &&& (1 <<< b) ≠ 0 <;>
        simp [h1, h2] at ha hb
    omega
  · intro d
    rw [mem_domainsFromParam]
    constructor
    · rintro ⟨i, _, hbit, rfl⟩
      rw [testBit_fromDomains] at hbit
      rcases List.any_eq_true.1 hbit with ⟨d', hd', hEq⟩
      have hb := hl d' hd'
      have : d' - 1 = i := by simpa using hEq
      have : d' = i + 1 := by omega
      simpa [this] using hd'
    · intro hd
      have hb := hl d hd
      refine ⟨d - 1, by omega, ?_, by omega⟩
      rw [testBit_fromDomains]
      exact List.any_eq_true.2 ⟨d, hd, by simp⟩

/-- C9: `Domain::new` returns the validation error exactly when the candidate
is 0 or greater than 16 and succeeds with the wrapped value on all of
`[1, 16]`; moreover the decoder of `DomainParam` (the only other producer of
`Domain` values in the file) only emits values in `[1, 16]`, so every
`Domain` in circulation satisfies the range invariant. -/
theorem domain_new_range_check :
    (∀ d : Nat, d < 256 →
      (Domain.new d = Except.ok d ↔ 1 ≤ d ∧ d ≤ 16) ∧
        (d = 0 ∨ 16 < d → Domain.new d = Except.error "invalid domain")) ∧
      ∀ p d : Nat, d ∈ domainsFromParam p → 1 ≤ d ∧ d ≤ 16 := by
  constructor
  · intro d _
    constructor
    · unfold Domain.new
      split <;> rename_i h
      · constructor
        · intro hEq
          cases hEq
        · intro hrange
          omega
      · constructor
        · intro _
          omega
        · intro
          rfl
    · intro h
      unfold Domain.new
      split <;> rename_i hc
      · rfl
      · omega
  · intro p d hd
    rcases (mem_domainsFromParam p d).1 hd with ⟨i, hi, _, rfl⟩
    omega

/-- Witness for C9 at concrete inputs: domain 5 is accepted, domain 0 is
rejected, and bit 3 of mask `0x8` decodes to the in-range domain 4. -/
theorem domain_new_range_check_witness :
    Domain.new 5 = Except.ok 5 ∧
      Domain.new 0 = Except.error "invalid domain" ∧
      (1 ≤ 4 ∧ 4 ≤ 16) :=
  ⟨((domain_new_range_check.1 5 (by norm_num)).1).2 (by norm_num),
   (domain_new_range_check.1 0 (by norm_num)).2 (Or.inl rfl),
   domain_new_range_check.2 8 4 (by decide)⟩

/-- Witness for C1 at a concrete input: the list `[7, 2, 7, 16]` (with a
duplicate, out of order) round-trips to the same set of domains. -/
theorem domain_encode_decode_roundtrip_witness :
    (domainsFromParam (DomainParam.fromDomains [7, 2, 7, 16])).Nodup ∧
      ∀ d, d ∈ domainsFromParam (DomainParam.fromDomains [7, 2, 7, 16]) ↔
        d ∈ [7, 2, 7, 16] :=
  domain_encode_decode_roundtrip [7, 2, 7, 16] (by decide)

/-! ## Return codes (`src/src/types.rs` lines 74-183) -/

/-- The `ReturnCode` enumeration (lines 74-106). -/
inductive ReturnCode where
  | Success
  | Memory
  | InitError
  | NetError
  | ConnectorNotFound
  | InvalidParams
  | WrongLength
  | BufferTooSmall
  | CryptogramMismatch
  | AuthSessionError
  | MacMismatch
  | DeviceOk
  | DeviceInvCommand
  | DeviceInvData
  | DeviceInvSession
  | DeviceAuthFail
  | DeviceSessionsFull
  | DeviceSessionFailed
  | DeviceStorageFailed
  | DeviceWrongLength
  | DeviceInvPermission
  | DeviceLogFull
  | DeviceObjNotFound
  | DeviceIdIllegal
  | DeviceInvalidOtp
  | DeviceDemoMode
  | DeviceCmdUnexecuted
  | GenericError
  | DeviceObjectExists
  | ConnectorError
  deriving DecidableEq, Fintype, Repr

/-- Modelled from the spec: the numeric `yh_rc` status values come from the
`yubihsm-sys` bindings (libyubihsm's header), which are not among the given
source files. The spec only requires a closed set of ~29 distinct codes
(§4.6); the values used here are 0 for success and distinct negative codes
for the failures, in declaration order. -/
def yh_rc_YHR_SUCCESS : Int := 0

def yh_rc_YHR_MEMORY : Int := -1

def yh_rc_YHR_INIT_ERROR : Int := -2

def yh_rc_YHR_NET_ERROR : Int := -3

def yh_rc_YHR_CONNECTOR_NOT_FOUND : Int := -4

def yh_rc_YHR_INVALID_PARAMS : Int := -5

def yh_rc_YHR_WRONG_LENGTH : Int := -6

def yh_rc_YHR_BUFFER_TOO_SMALL : Int := -7

def yh_rc_YHR_CRYPTOGRAM_MISMATCH : Int := -8

def yh_rc_YHR_AUTH_SESSION_ERROR : Int := -9

def yh_rc_YHR_MAC_MISMATCH : Int := -10

def yh_rc_YHR_DEVICE_OK : Int := -11

def yh_rc_YHR_DEVICE_INV_COMMAND : Int := -12

def yh_rc_YHR_DEVICE_INV_DATA : Int := -13

def yh_rc_YHR_DEVICE_INV_SESSION : Int := -14

def yh_rc_YHR_DEVICE_AUTH_FAIL : Int := -15

def yh_rc_YHR_DEVICE_SESSIONS_FULL : Int := -16

def yh_rc_YHR_DEVICE_SESSION_FAILED : Int := -17

def yh_rc_YHR_DEVICE_STORAGE_FAILED : Int := -18

def yh_rc_YHR_DEVICE_WRONG_LENGTH : Int := -19

def yh_rc_YHR_DEVICE_INV_PERMISSION : Int := -20

def yh_rc_YHR_DEVICE_LOG_FULL : Int := -21

def yh_rc_YHR_DEVICE_OBJ_NOT_FOUND : Int := -22

def yh_rc_YHR_DEVICE_ID_ILLEGAL : Int := -23

def yh_rc_YHR_DEVICE_INVALID_OTP : Int := -24

def yh_rc_YHR_DEVICE_DEMO_MODE : Int := -25

def yh_rc_YHR_DEVICE_CMD_UNEXECUTED : Int := -26

def yh_rc_YHR_GENERIC_ERROR : Int := -27

def yh_rc_YHR_DEVICE_OBJECT_EXISTS : Int := -28

def yh_rc_YHR_CONNECTOR_ERROR : Int := -29

/-- First-match lookup: a Rust `match` whose arms compare the scrutinee with
constants in order, represented as an ordered table of (constant, arm result)
pairs. `chainLookup t v` unfolds to the same chain of equality tests the
`match` compiles to; `none` is the wildcard arm. -/
def chainLookup {κ α : Type} [DecidableEq κ] : List (κ × α) → κ → Option α
  | [], _ => none
  | (c, x) :: rest, v => if v = c then some x else chainLookup rest v

lemma chainLookup_eq_some {κ α : Type} [DecidableEq κ]
    {t : List (κ × α)} {v : κ} {x : α}
    (h : chainLookup t v = some x) : (v, x) ∈ t := by
  induction t with
  | nil => exact Option.noConfusion h
  | cons p rest ih =>
      obtain ⟨c, y⟩ := p
      rw [chainLookup] at h
      by_cases hc : v = c
      · rw [if_pos hc] at h
        injection h with h2
        subst h2
        subst hc
        exact List.mem_cons_self _ _
      · rw [if_neg hc] at h
        exact List.mem_cons_of_mem _ (ih h)

lemma chainLookup_eq_none {κ α : Type} [DecidableEq κ]
    {t : List (κ × α)} {v : κ}
    (h : ∀ p ∈ t, p.1 ≠ v) : chainLookup t v = none := by
  induction t with
  | nil => rfl
  | cons p rest ih =>
      obtain ⟨c, y⟩ := p
      rw [chainLookup]
      rw [if_neg fun hEq => h (c, y) (List.mem_cons_self _ _) hEq.symm]
      exact ih fun q hq => h q (List.mem_cons_of_mem _ hq)

/-- The arms of `impl From<yh_rc> for ReturnCode` (lines 109-145), in source
order. -/
def rcTable : List (Int × ReturnCode) :=
  [(yh_rc_YHR_SUCCESS, ReturnCode.Success),
   (yh_rc_YHR_MEMORY, ReturnCode.Memory),
   (yh_rc_YHR_INIT_ERROR, ReturnCode.InitError),
   (yh_rc_YHR_NET_ERROR, ReturnCode.NetError),
   (yh_rc_YHR_CONNECTOR_NOT_FOUND, ReturnCode.ConnectorNotFound),
   (yh_rc_YHR_INVALID_PARAMS, ReturnCode.InvalidParams),
   (yh_rc_YHR_WRONG_LENGTH, ReturnCode.WrongLength),
   (yh_rc_YHR_BUFFER_TOO_SMALL, ReturnCode.BufferTooSmall),
   (yh_rc_YHR_CRYPTOGRAM_MISMATCH, ReturnCode.CryptogramMismatch),
   (yh_rc_YHR_AUTH_SESSION_ERROR, ReturnCode.AuthSessionError),
   (yh_rc_YHR_MAC_MISMATCH, ReturnCode.MacMismatch),
   (yh_rc_YHR_DEVICE_OK, ReturnCode.DeviceOk),
   (yh_rc_YHR_DEVICE_INV_COMMAND, ReturnCode.DeviceInvCommand),
   (yh_rc_YHR_DEVICE_INV_DATA, ReturnCode.DeviceInvData),
   (yh_rc_YHR_DEVICE_INV_SESSION, ReturnCode.DeviceInvSession),
   (yh_rc_YHR_DEVICE_AUTH_FAIL, ReturnCode.DeviceAuthFail),
   (yh_rc_YHR_DEVICE_SESSIONS_FULL, ReturnCode.DeviceSessionsFull),
   (yh_rc_YHR_DEVICE_SESSION_FAILED, ReturnCode.DeviceSessionFailed),
   (yh_rc_YHR_DEVICE_STORAGE_FAILED, ReturnCode.DeviceStorageFailed),
   (yh_rc_YHR_DEVICE_WRONG_LENGTH, ReturnCode.DeviceWrongLength),
   (yh_rc_YHR_DEVICE_INV_PERMISSION, ReturnCode.DeviceInvPermission),
   (yh_rc_YHR_DEVICE_LOG_FULL, ReturnCode.DeviceLogFull),
   (yh_rc_YHR_DEVICE_OBJ_NOT_FOUND, ReturnCode.DeviceObjNotFound),
   (yh_rc_YHR_DEVICE_ID_ILLEGAL, ReturnCode.DeviceIdIllegal),
   (yh_rc_YHR_DEVICE_INVALID_OTP, ReturnCode.DeviceInvalidOtp),
   (yh_rc_YHR_DEVICE_DEMO_MODE, ReturnCode.DeviceDemoMode),
   (yh_rc_YHR_DEVICE_CMD_UNEXECUTED, ReturnCode.DeviceCmdUnexecuted),
   (yh_rc_YHR_GENERIC_ERROR, ReturnCode.GenericError),
   (yh_rc_YHR_DEVICE_OBJECT_EXISTS, ReturnCode.DeviceObjectExists),
   (yh_rc_YHR_CONNECTOR_ERROR, ReturnCode.ConnectorError)]

/-- `impl From<yh_rc> for ReturnCode` (lines 109-145): a match over the 30
known codes; the wildcard arm is `panic!("unexpected return code: ...")`,
modelled as `none` (a fatal abort, not a `Result` value). -/
def ReturnCode.fromYhRc (rc : Int) : Option ReturnCode :=
  chainLookup rcTable rc

/-- `impl From<ReturnCode> for yh_rc` (lines 148-183): exhaustive and total. -/
def ReturnCode.toYhRc : ReturnCode → Int
  | ReturnCode.Success => yh_rc_YHR_SUCCESS
  | ReturnCode.Memory => yh_rc_YHR_MEMORY
  | ReturnCode.InitError => yh_rc_YHR_INIT_ERROR
  | ReturnCode.NetError => yh_rc_YHR_NET_ERROR
  | ReturnCode.ConnectorNotFound => yh_rc_YHR_CONNECTOR_NOT_FOUND
  | ReturnCode.InvalidParams => yh_rc_YHR_INVALID_PARAMS
  | ReturnCode.WrongLength => yh_rc_YHR_WRONG_LENGTH
  | ReturnCode.BufferTooSmall => yh_rc_YHR_BUFFER_TOO_SMALL
  | ReturnCode.CryptogramMismatch => yh_rc_YHR_CRYPTOGRAM_MISMATCH
  | ReturnCode.AuthSessionError => yh_rc_YHR_AUTH_SESSION_ERROR
  | ReturnCode.MacMismatch => yh_rc_YHR_MAC_MISMATCH
  | ReturnCode.DeviceOk => yh_rc_YHR_DEVICE_OK
  | ReturnCode.DeviceInvCommand => yh_rc_YHR_DEVICE_INV_COMMAND
  | ReturnCode.DeviceInvData => yh_rc_YHR_DEVICE_INV_DATA
  | ReturnCode.DeviceInvSession => yh_rc_YHR_DEVICE_INV_SESSION
  | ReturnCode.DeviceAuthFail => yh_rc_YHR_DEVICE_AUTH_FAIL
  | ReturnCode.DeviceSessionsFull => yh_rc_YHR_DEVICE_SESSIONS_FULL
  | ReturnCode.DeviceSessionFailed => yh_rc_YHR_DEVICE_SESSION_FAILED
  | ReturnCode.DeviceStorageFailed => yh_rc_YHR_DEVICE_STORAGE_FAILED
  | ReturnCode.DeviceWrongLength => yh_rc_YHR_DEVICE_WRONG_LENGTH
  | ReturnCode.DeviceInvPermission => yh_rc_YHR_DEVICE_INV_PERMISSION
  | ReturnCode.DeviceLogFull => yh_rc_YHR_DEVICE_LOG_FULL
  | ReturnCode.DeviceObjNotFound => yh_rc_YHR_DEVICE_OBJ_NOT_FOUND
  | ReturnCode.DeviceIdIllegal => yh_rc_YHR_DEVICE_ID_ILLEGAL
  | ReturnCode.DeviceInvalidOtp => yh_rc_YHR_DEVICE_INVALID_OTP
  | ReturnCode.DeviceDemoMode => yh_rc_YHR_DEVICE_DEMO_MODE
  | ReturnCode.DeviceCmdUnexecuted => yh_rc_YHR_DEVICE_CMD_UNEXECUTED
  | ReturnCode.GenericError => yh_rc_YHR_GENERIC_ERROR
  | ReturnCode.DeviceObjectExists => yh_rc_YHR_DEVICE_OBJECT_EXISTS
  | ReturnCode.ConnectorError => yh_rc_YHR_CONNECTOR_ERROR

lemma ReturnCode.fromYhRc_toYhRc (r : ReturnCode) :
    ReturnCode.fromYhRc r.toYhRc = some r := by
  cases r <;> rfl

lemma rcTable_exact : ∀ p ∈ rcTable, (p.2).toYhRc = p.1 := by decide

lemma ReturnCode.toYhRc_fromYhRc {v : Int} {r : ReturnCode}
    (h : ReturnCode.fromYhRc v = some r) : r.toYhRc = v :=
  rcTable_exact (v, r) (chainLookup_eq_some h)

/-- C5: every numeric code in the closed known set (the image of the exact
encoding) decodes to the corresponding variant, and decoding any numeric
value outside the known set is the fatal `panic!` arm (`none` in this
embedding) — not a normal `Result` error value returned to the caller. -/
theorem returncode_unknown_code_panics :
    (∀ r : ReturnCode, ReturnCode.fromYhRc r.toYhRc = some r) ∧
      ∀ v : Int, ReturnCode.fromYhRc v = none ↔ ∀ r : ReturnCode, r.toYhRc ≠ v := by
  refine ⟨ReturnCode.fromYhRc_toYhRc, fun v => ⟨?_, ?_⟩⟩
  · intro hnone r hEq
    have h := ReturnCode.fromYhRc_toYhRc r
    rw [hEq, hnone] at h
    exact Option.noConfusion h
  · intro hall
    exact chainLookup_eq_none fun p hp =>
      (rcTable_exact p hp) ▸ hall p.2

/-! ## Capabilities (`src/src/types.rs` lines 450-697) -/

/-- The `Capability` enumeration (lines 450-499), `Unknown` sentinel last. -/
inductive Capability where
  | GetOpaque
  | PutOpaque
  | PutAuthKey
  | PutAsymmetric
  | AsymmetricGen
  | AsymmetricSignPkcs
  | AsymmetricSignPss
  | AsymmetricSignEcdsa
  | AsymmetricSignEddsa
  | AsymmetricDecryptPkcs
  | AsymmetricDecryptOaep
  | AsymmetricDecryptEcdh
  | ExportWrapped
  | ImportWrapped
  | PutWrapkey
  | GenerateWrapkey
  | ExportUnderWrap
  | PutOption
  | GetOption
  | GetRandomness
  | PutHmackey
  | HmackeyGenerate
  | HmacData
  | HmacVerify
  | Audit
  | SshCertify
  | GetTemplate
  | PutTemplate
  | Reset
  | OtpDecrypt
  | OtpAeadCreate
  | OtpAeadRandom
  | OtpAeadRewrapFrom
  | OtpAeadRewrapTo
  | Attest
  | PutOtpAeadKey
  | GenerateOtpAeadKey
  | WrapData
  | UnwrapData
  | DeleteOpaque
  | DeleteAuthkey
  | DeleteAsymmetric
  | DeleteWrapKey
  | DeleteHmacKey
  | DeleteTemplate
  | DeleteOtpAeadKey
  | Unknown
  deriving DecidableEq, Fintype, Repr

/-- `impl From<&Capability> for String` (lines 507-559): the canonical
lowercase snake-case name of each capability. -/
def Capability.toName : Capability → String
  | Capability.GetOpaque => "get_opaque"
  | Capability.PutOpaque => "put_opaque"
  | Capability.PutAuthKey => "put_authkey"
  | Capability.PutAsymmetric => "put_asymmetric"
  | Capability.AsymmetricGen => "asymmetric_gen"
  | Capability.AsymmetricSignPkcs => "asymmetric_sign_pkcs"
  | Capability.AsymmetricSignPss => "asymmetric_sign_pss"
  | Capability.AsymmetricSignEcdsa => "asymmetric_sign_ecdsa"
  | Capability.AsymmetricSignEddsa => "asymmetric_sign_eddsa"
  | Capability.AsymmetricDecryptPkcs => "asymmetric_decrypt_pkcs"
  | Capability.AsymmetricDecryptOaep => "asymmetric_decrypt_oaep"
  | Capability.AsymmetricDecryptEcdh => "asymmetric_decrypt_ecdh"
  | Capability.ExportWrapped => "export_wrapped"
  | Capability.ImportWrapped => "import_wrapped"
  | Capability.PutWrapkey => "put_wrapkey"
  | Capability.GenerateWrapkey => "generate_wrapkey"
  | Capability.ExportUnderWrap => "export_under_wrap"
  | Capability.PutOption => "put_option"
  | Capability.GetOption => "get_option"
  | Capability.GetRandomness => "get_randomness"
  | Capability.PutHmackey => "put_hmackey"
  | Capability.HmackeyGenerate => "hmackey_generate"
  | Capability.HmacData => "hmac_data"
  | Capability.HmacVerify => "hmac_verify"
  | Capability.Audit => "audit"
  | Capability.SshCertify => "ssh_certify"
  | Capability.GetTemplate => "get_template"
  | Capability.PutTemplate => "put_template"
  | Capability.Reset => "reset"
  | Capability.OtpDecrypt => "otp_decrypt"
  | Capability.OtpAeadCreate => "otp_aead_create"
  | Capability.OtpAeadRandom => "otp_aead_random"
  | Capability.OtpAeadRewrapFrom => "otp_aead_rewrap_from"
  | Capability.OtpAeadRewrapTo => "otp_aead_rewrap_to"
  | Capability.Attest => "attest"
  | Capability.PutOtpAeadKey => "put_otp_aead_key"
  | Capability.GenerateOtpAeadKey => "generate_otp_aead_key"
  | Capability.WrapData => "wrap_data"
  | Capability.UnwrapData => "unwrap_data"
  | Capability.DeleteOpaque => "delete_opaque"
  | Capability.DeleteAuthkey => "delete_authkey"
  | Capability.DeleteAsymmetric => "delete_asymmetric"
  | Capability.DeleteWrapKey => "delete_wrapkey"
  | Capability.DeleteHmacKey => "delete_hmackey"
  | Capability.DeleteTemplate => "delete_template"
  | Capability.DeleteOtpAeadKey => "delete_otp_aead_key"
  | Capability.Unknown => "unknown"

/-- The arms of `impl<T: AsRef<str>> From<T> for Capability` (lines 561-616),
in source order; the wildcard arm maps to `Unknown`. -/
def capNameTable : List (String × Capability) :=
  [("get_opaque", Capability.GetOpaque),
   ("put_opaque", Capability.PutOpaque),
   ("put_authkey", Capability.PutAuthKey),
   ("put_asymmetric", Capability.PutAsymmetric),
   ("asymmetric_gen", Capability.AsymmetricGen),
   ("asymmetric_sign_pkcs", Capability.AsymmetricSignPkcs),
   ("asymmetric_sign_pss", Capability.AsymmetricSignPss),
   ("asymmetric_sign_ecdsa", Capability.AsymmetricSignEcdsa),
   ("asymmetric_sign_eddsa", Capability.AsymmetricSignEddsa),
   ("asymmetric_decrypt_pkcs", Capability.AsymmetricDecryptPkcs),
   ("asymmetric_decrypt_oaep", Capability.AsymmetricDecryptOaep),
   ("asymmetric_decrypt_ecdh", Capability.AsymmetricDecryptEcdh),
   ("export_wrapped", Capability.ExportWrapped),
   ("import_wrapped", Capability.ImportWrapped),
   ("put_wrapkey", Capability.PutWrapkey),
   ("generate_wrapkey", Capability.GenerateWrapkey),
   ("export_under_wrap", Capability.ExportUnderWrap),
   ("put_option", Capability.PutOption),
   ("get_option", Capability.GetOption),
   ("get_randomness", Capability.GetRandomness),
   ("put_hmackey", Capability.PutHmackey),
   ("hmackey_generate", Capability.HmackeyGenerate),
   ("hmac_data", Capability.HmacData),
   ("hmac_verify", Capability.HmacVerify),
   ("audit", Capability.Audit),
   ("ssh_certify", Capability.SshCertify),
   ("get_template", Capability.GetTemplate),
   ("put_template", Capability.PutTemplate),
   ("reset", Capability.Reset),
   ("otp_decrypt", Capability.OtpDecrypt),
   ("otp_aead_create", Capability.OtpAeadCreate),
   ("otp_aead_random", Capability.OtpAeadRandom),
   ("otp_aead_rewrap_from", Capability.OtpAeadRewrapFrom),
   ("otp_aead_rewrap_to", Capability.OtpAeadRewrapTo),
   ("attest", Capability.Attest),
   ("put_otp_aead_key", Capability.PutOtpAeadKey),
   ("generate_otp_aead_key", Capability.GenerateOtpAeadKey),
   ("wrap_data", Capability.WrapData),
   ("unwrap_data", Capability.UnwrapData),
   ("delete_opaque", Capability.DeleteOpaque),
   ("delete_authkey", Capability.DeleteAuthkey),
   ("delete_asymmetric", Capability.DeleteAsymmetric),
   ("delete_wrapkey", Capability.DeleteWrapKey),
   ("delete_hmackey", Capability.DeleteHmacKey),
   ("delete_template", Capability.DeleteTemplate),
   ("delete_otp_aead_key", Capability.DeleteOtpAeadKey)]

/-- `impl<T: AsRef<str>> From<T> for Capability` (lines 561-616): unknown
names degrade to the `Unknown` sentinel rather than failing. -/
def Capability.fromName (s : String) : Capability :=
  (chainLookup capNameTable s).getD Capability.Unknown

/-- C3: every capability other than the `Unknown` sentinel round-trips
through its canonical snake-case name, and a string that is no known
capability name comes back as `Unknown` rather than as an error. -/
theorem capability_name_roundtrip :
    (∀ c : Capability, c ≠ Capability.Unknown →
        Capability.fromName (Capability.toName c) = c) ∧
      Capability.fromName "not_a_real_capability" = Capability.Unknown := by
  constructor
  · intro c _
    cases c <;> rfl
  · rfl

/-- Witness for C3 at a concrete input: `asymmetric_sign_ecdsa` round-trips. -/
theorem capability_name_roundtrip_witness :
    Capability.fromName (Capability.toName Capability.AsymmetricSignEcdsa) =
      Capability.AsymmetricSignEcdsa :=
  capability_name_roundtrip.1 Capability.AsymmetricSignEcdsa (by decide)

/-! ## Algorithms (`src/src/types.rs` lines 272-432) -/

/-- The `Algorithm` enumeration (lines 272-321). -/
inductive Algorithm where
  | RsaPkcs1Sha1
  | RsaPkcs1Sha256
  | RsaPkcs1Sha384
  | RsaPkcs1Sha512
  | RsaPssSha1
  | RsaPssSha256
  | RsaPssSha384
  | RsaPssSha512
  | Rsa2048
  | Rsa3072
  | Rsa4096
  | EcP256
  | EcP384
  | EcP521
  | EcK256
  | EcBp256
  | EcBp384
  | EcBp512
  | HmacSha1
  | HmacSha256
  | HmacSha384
  | HmacSha512
  | EcEcdsaSha1
  | EcEcdh
  | RsaOaepSha1
  | RsaOaepSha256
  | RsaOaepSha384
  | RsaOaepSha512
  | Aes128CcmWrap
  | OpaqueData
  | OpaqueX509Cert
  | Mgf1Sha1
  | Mgf1Sha256
  | Mgf1Sha384
  | Mgf1Sha512
  | TemplSsh
  | YubicoOtpAes128
  | YubicoAesAuth
  | YubicoOtpAes192
  | YubicoOtpAes256
  | Aes192CcmWrap
  | Aes256CcmWrap
  | EcEcdsaSha256
  | EcEcdsaSha384
  | EcEcdsaSha512
  | EcEd25519
  | EcP224
  deriving DecidableEq, Fintype, Repr

/-- Modelled from the spec: `impl From<Algorithm> for yh_algorithm`
(lines 380-432) maps each variant to its `yh_algorithm_YH_ALGO_*` constant of
the `yubihsm-sys` bindings, which are not among the given source files. The
spec only requires each variant to be "bound to a stable numeric code"
(closed, distinct); here the codes are 1..47 in the declaration order of the
enumeration, with the late additions `EcEcdsaSha256/384/512` (43-45),
`EcEd25519` (46) and `EcP224` (47) at the end. -/
def Algorithm.toYh : Algorithm → Nat
  | Algorithm.RsaPkcs1Sha1 => 1
  | Algorithm.RsaPkcs1Sha256 => 2
  | Algorithm.RsaPkcs1Sha384 => 3
  | Algorithm.RsaPkcs1Sha512 => 4
  | Algorithm.RsaPssSha1 => 5
  | Algorithm.RsaPssSha256 => 6
  | Algorithm.RsaPssSha384 => 7
  | Algorithm.RsaPssSha512 => 8
  | Algorithm.Rsa2048 => 9
  | Algorithm.Rsa3072 => 10
  | Algorithm.Rsa4096 => 11
  | Algorithm.EcP256 => 12
  | Algorithm.EcP384 => 13
  | Algorithm.EcP521 => 14
  | Algorithm.EcK256 => 15
  | Algorithm.EcBp256 => 16
  | Algorithm.EcBp384 => 17
  | Algorithm.EcBp512 => 18
  | Algorithm.HmacSha1 => 19
  | Algorithm.HmacSha256 => 20
  | Algorithm.HmacSha384 => 21
  | Algorithm.HmacSha512 => 22
  | Algorithm.EcEcdsaSha1 => 23
  | Algorithm.EcEcdh => 24
  | Algorithm.RsaOaepSha1 => 25
  | Algorithm.RsaOaepSha256 => 26
  | Algorithm.RsaOaepSha384 => 27
  | Algorithm.RsaOaepSha512 => 28
  | Algorithm.Aes128CcmWrap => 29
  | Algorithm.OpaqueData => 30
  | Algorithm.OpaqueX509Cert => 31
  | Algorithm.Mgf1Sha1 => 32
  | Algorithm.Mgf1Sha256 => 33
  | Algorithm.Mgf1Sha384 => 34
  | Algorithm.Mgf1Sha512 => 35
  | Algorithm.TemplSsh => 36
  | Algorithm.YubicoOtpAes128 => 37
  | Algorithm.YubicoAesAuth => 38
  | Algorithm.YubicoOtpAes192 => 39
  | Algorithm.YubicoOtpAes256 => 40
  | Algorithm.Aes192CcmWrap => 41
  | Algorithm.Aes256CcmWrap => 42
  | Algorithm.EcEcdsaSha256 => 43
  | Algorithm.EcEcdsaSha384 => 44
  | Algorithm.EcEcdsaSha512 => 45
  | Algorithm.EcEd25519 => 46
  | Algorithm.EcP224 => 47

/-- The arms of `impl From<yh_algorithm> for Algorithm` (lines 324-377), in
source order (the source lists `EC_P224` after `RSA_4096` and groups the
late ECDSA/CCM/OTP additions with their families). -/
def algTable : List (Nat × Algorithm) :=
  [(1, Algorithm.RsaPkcs1Sha1),
   (2, Algorithm.RsaPkcs1Sha256),
   (3, Algorithm.RsaPkcs1Sha384),
   (4, Algorithm.RsaPkcs1Sha512),
   (5, Algorithm.RsaPssSha1),
   (6, Algorithm.RsaPssSha256),
   (7, Algorithm.RsaPssSha384),
   (8, Algorithm.RsaPssSha512),
   (9, Algorithm.Rsa2048),
   (10, Algorithm.Rsa3072),
   (11, Algorithm.Rsa4096),
   (47, Algorithm.EcP224),
   (12, Algorithm.EcP256),
   (13, Algorithm.EcP384),
   (14, Algorithm.EcP521),
   (15, Algorithm.EcK256),
   (16, Algorithm.EcBp256),
   (17, Algorithm.EcBp384),
   (18, Algorithm.EcBp512),
   (19, Algorithm.HmacSha1),
   (20, Algorithm.HmacSha256),
   (21, Algorithm.HmacSha384),
   (22, Algorithm.HmacSha512),
   (23, Algorithm.EcEcdsaSha1),
   (43, Algorithm.EcEcdsaSha256),
   (44, Algorithm.EcEcdsaSha384),
   (45, Algorithm.EcEcdsaSha512),
   (24, Algorithm.EcEcdh),
   (25, Algorithm.RsaOaepSha1),
   (26, Algorithm.RsaOaepSha256),
   (27, Algorithm.RsaOaepSha384),
   (28, Algorithm.RsaOaepSha512),
   (29, Algorithm.Aes128CcmWrap),
   (41, Algorithm.Aes192CcmWrap),
   (42, Algorithm.Aes256CcmWrap),
   (30, Algorithm.OpaqueData),
   (31, Algorithm.OpaqueX509Cert),
   (32, Algorithm.Mgf1Sha1),
   (33, Algorithm.Mgf1Sha256),
   (34, Algorithm.Mgf1Sha384),
   (35, Algorithm.Mgf1Sha512),
   (36, Algorithm.TemplSsh),
   (37, Algorithm.YubicoOtpAes128),
   (39, Algorithm.YubicoOtpAes192),
   (40, Algorithm.YubicoOtpAes256),
   (38, Algorithm.YubicoAesAuth),
   (46, Algorithm.EcEd25519)]

/-- `impl From<yh_algorithm> for Algorithm` (lines 324-377): the wildcard arm
is `panic!("unexpected algorithm type: ...")`, modelled as `none`. -/
def Algorithm.fromYh (alg : Nat) : Option Algorithm :=
  chainLookup algTable alg

lemma algTable_exact : ∀ p ∈ algTable, (p.2).toYh = p.1 := by decide

/-- C4: every `Algorithm` variant round-trips through its numeric device
code (decode of encode yields `some` of the same variant, never the panic
arm), and every numeric code the decoder accepts maps back to the same code
under the (total, panic-free) encoder. -/
theorem algorithm_roundtrip :
    (∀ a : Algorithm, Algorithm.fromYh a.toYh = some a) ∧
      ∀ (n : Nat) (a : Algorithm), Algorithm.fromYh n = some a → a.toYh = n := by
  constructor
  · intro a
    cases a <;> rfl
  · intro n a h
    exact algTable_exact (n, a) (chainLookup_eq_some h)

/-- Witness for C4 at concrete inputs: `EcEd25519` round-trips, and the
accepted code 12 maps back to 12. -/
theorem algorithm_roundtrip_witness :
    Algorithm.fromYh (Algorithm.toYh Algorithm.EcEd25519) =
        some Algorithm.EcEd25519 ∧
      Algorithm.toYh Algorithm.EcP256 = 12 :=
  ⟨algorithm_roundtrip.1 Algorithm.EcEd25519,
   algorithm_roundtrip.2 12 Algorithm.EcP256 rfl⟩

/-! ## Object types (`src/src/types.rs` lines 227-270) -/

/-- The `ObjectType` enumeration (lines 227-237). -/
inductive ObjectType where
  | Asymmetric
  | AuthKey
  | HmacKey
  | Opaque
  | OtpAeadKey
  | Public
  | Template
  | WrapKey
  deriving DecidableEq, Fintype, Repr

/-- Modelled from the spec: the `yh_object_type_YH_*` constants of the
`yubihsm-sys` bindings are not among the given source files; the spec only
requires a closed enumeration of the 8 device object kinds, so the arms of
`impl From<yh_object_type> for ObjectType` (lines 240-254) are tabled here
with distinct codes 1..8 in the source's arm order. The wildcard arm is
`panic!("unexpected object type: ...")`, modelled as `none`. -/
def objTypeTable : List (Nat × ObjectType) :=
  [(1, ObjectType.Asymmetric),
   (2, ObjectType.AuthKey),
   (3, ObjectType.HmacKey),
   (4, ObjectType.Opaque),
   (5, ObjectType.OtpAeadKey),
   (6, ObjectType.Public),
   (7, ObjectType.Template),
   (8, ObjectType.WrapKey)]

/-- `impl From<yh_object_type> for ObjectType` (lines 240-254). -/
def ObjectType.fromYh (obj : Nat) : Option ObjectType :=
  chainLookup objTypeTable obj

/-! ## Capability set codec (`src/src/types.rs` lines 664-697) -/

/-- Rust's `Iterator::collect::<Result<Vec<_>, _>>()`: collect a sequence of
results into one result, stopping at the first error. -/
def collectResults {ε α : Type} : List (Except ε α) → Except ε (List α)
  | [] => Except.ok []
  | x :: xs =>
    match x with
    | Except.error e => Except.error e
    | Except.ok a =>
      match collectResults xs with
      | Except.error e => Except.error e
      | Except.ok rest => Except.ok (a :: rest)

/-- `Capability::try_from_yh_capabilities` (lines 669-697). The
`yh_capabilities` blob is opaque and is translated by the provider call
`yh_num_to_capabilities` (a 64-slot scratch array of C-string pointers is
passed; the provider reports failure — including more names than the scratch
space holds — through its status code). The call's observable outcome is
modelled by its two results: the status code `providerRc` and the returned
name list `names`, where a `none` entry stands for a returned C string that
is not valid UTF-8 (the `CStr::to_str` failure). `ReturnCode::from` on the
status can `panic!` on an unknown code (outer `none`); a known non-`Success`
status is `bail!` — a recoverable `Except.error`; otherwise each name is
mapped through `Capability::from` (unknown names becoming `Unknown`) and the
per-name UTF-8 results are collected, the first failure aborting the
decode. -/
def Capability.tryFromYhCapabilities (providerRc : Int)
    (names : List (Option String)) :
    Option (Except String (List Capability)) :=
  match ReturnCode.fromYhRc providerRc with
  | none => none
  | some ret =>
    if ret ≠ ReturnCode.Success then
      some (Except.error "yh_num_to_capabilities failed")
    else
      some (collectResults (names.map fun s =>
        match s with
        | none => Except.error "invalid utf-8"
        | some str => Except.ok (Capability.fromName str)))

/-- Counterexample to C6 as stated: when the provider reports
`YHR_BUFFER_TOO_SMALL` (the code for more names than the 64-slot scratch
space holds), the decode returns a normal recoverable error value
(`bail!` → `Except.error`), not the fatal-abort outcome (`none`, the
modelling of `panic!`) that the claim asserts. -/
theorem capability_provider_failure_counterexample :
    Capability.tryFromYhCapabilities yh_rc_YHR_BUFFER_TOO_SMALL [] =
        some (Except.error "yh_num_to_capabilities failed") ∧
      some (Except.error "yh_num_to_capabilities failed") ≠
        (none : Option (Except String (List Capability))) :=
  ⟨rfl, fun h => Option.noConfusion h⟩

/-- C6 amended: a failure reported by the capability-translation provider
(including the case where it reports more names than the allocated 64-slot
scratch space can hold) aborts the decode with a recoverable error result
(`bail!`, i.e. `Except.error`), while unknown capability names returned by
the provider degrade to the `Unknown` sentinel without failing the whole
decode. -/
theorem capability_decode_error_handling :
    (∀ (rcNum : Int) (ret : ReturnCode) (names : List (Option String)),
        ReturnCode.fromYhRc rcNum = some ret → ret ≠ ReturnCode.Success →
          Capability.tryFromYhCapabilities rcNum names =
            some (Except.error "yh_num_to_capabilities failed")) ∧
      ∀ names : List String,
        Capability.tryFromYhCapabilities yh_rc_YHR_SUCCESS (names.map some) =
          some (Except.ok (names.map Capability.fromName)) := by
  constructor
  · intro rcNum ret names hdec hne
    unfold Capability.tryFromYhCapabilities
    rw [hdec]
    simp [hne]
  · intro names
    show some (collectResults ((names.map some).map fun s =>
        match s with
        | none => Except.error "invalid utf-8"
        | some str => Except.ok (Capability.fromName str))) =
      some (Except.ok (names.map Capability.fromName))
    congr 1
    induction names with
    | nil => rfl
    | cons x xs ih =>
        rw [List.map_map] at ih
        simp [collectResults, ih]

/-- Witness for C6 (amended) at concrete inputs: a `GenericError` status
yields the recoverable error, and a successful status with one known and one
unknown name yields `[GetOpaque, Unknown]` without failing. -/
theorem capability_decode_error_handling_witness :
    Capability.tryFromYhCapabilities yh_rc_YHR_GENERIC_ERROR [] =
        some (Except.error "yh_num_to_capabilities failed") ∧
      Capability.tryFromYhCapabilities yh_rc_YHR_SUCCESS
          [some "get_opaque", some "not_a_real_capability_name"] =
        some (Except.ok [Capability.GetOpaque, Capability.Unknown]) :=
  ⟨capability_decode_error_handling.1 yh_rc_YHR_GENERIC_ERROR
      ReturnCode.GenericError [] rfl (by decide),
   capability_decode_error_handling.2 ["get_opaque", "not_a_real_capability_name"]⟩

/-! ## Commands (`src/src/types.rs` lines 723-974) -/

/-- The `CommandType` enumeration (lines 730-784). -/
inductive CommandType where
  | Echo
  | CreateSession
  | AuthSession
  | SessionMessage
  | GetDeviceInfo
  | Bsl
  | Reset
  | CloseSession
  | StorageStatistics
  | PutOpaque
  | GetOpaque
  | PutAuthKey
  | PutAsymmetricKey
  | GenerateAsymmetricKey
  | SignPkcs1
  | ListObjects
  | DecryptPkcs1
  | ExportWrapped
  | ImportWrapped
  | PutWrapKey
  | GetLogs
  | GetObjectInfo
  | PutOption
  | GetOption
  | GetPsuedoRandom
  | PutHmacKey
  | HmacData
  | GetPubkey
  | SignPss
  | SignEcdsa
  | DecryptEcdh
  | DeleteObject
  | DecryptOaep
  | GenerateHmacKey
  | GenerateWrapKey
  | VerifyHmac
  | SshCertify
  | PutTemplate
  | GetTemplate
  | OtpDecrypt
  | OtpAeadCreate
  | OtpAeadRandom
  | OtpAeadRewrap
  | AttestAsymmetric
  | PutOtpAeadKey
  | GenerateOtpAeadKey
  | SetLogIndex
  | WrapData
  | UnwrapData
  | SignEddsa
  | Blink
  | Error
  deriving DecidableEq, Fintype, Repr

/-- The `Command` enumeration (lines 723-728). -/
inductive Command where
  | Request : CommandType → Command
  | Response : CommandType → Command
  | Unknown : Command
  deriving DecidableEq, Repr

/-- Modelled from the spec: `impl From<CommandType> for u8` (lines 786-845)
maps each variant to its `yh_cmd_YHC_*` constant of the `yubihsm-sys`
bindings, which are not among the given source files. The spec requires each
`CommandType` to be "bound to a distinct opcode" below `0x80` with the top
bit clear, with the session-setup commands in the low range, the bulk of the
operations from `0x40` up, and `Error` the distinguished opcode `0x7f`; the
values here are those of the YubiHSM2 command set. The source casts the
constant with `as u8`, which truncates nothing since every value is below
`0x80`. -/
def CommandType.opcode : CommandType → Nat
  | CommandType.Echo => 0x01
  | CommandType.CreateSession => 0x03
  | CommandType.AuthSession => 0x04
  | CommandType.SessionMessage => 0x05
  | CommandType.GetDeviceInfo => 0x06
  | CommandType.Bsl => 0x07
  | CommandType.Reset => 0x08
  | CommandType.CloseSession => 0x40
  | CommandType.StorageStatistics => 0x41
  | CommandType.PutOpaque => 0x42
  | CommandType.GetOpaque => 0x43
  | CommandType.PutAuthKey => 0x44
  | CommandType.PutAsymmetricKey => 0x45
  | CommandType.GenerateAsymmetricKey => 0x46
  | CommandType.SignPkcs1 => 0x47
  | CommandType.ListObjects => 0x48
  | CommandType.DecryptPkcs1 => 0x49
  | CommandType.ExportWrapped => 0x4a
  | CommandType.ImportWrapped => 0x4b
  | CommandType.PutWrapKey => 0x4c
  | CommandType.GetLogs => 0x4d
  | CommandType.GetObjectInfo => 0x4e
  | CommandType.PutOption => 0x4f
  | CommandType.GetOption => 0x50
  | CommandType.GetPsuedoRandom => 0x51
  | CommandType.PutHmacKey => 0x52
  | CommandType.HmacData => 0x53
  | CommandType.GetPubkey => 0x54
  | CommandType.SignPss => 0x55
  | CommandType.SignEcdsa => 0x56
  | CommandType.DecryptEcdh => 0x57
  | CommandType.DeleteObject => 0x58
  | CommandType.DecryptOaep => 0x59
  | CommandType.GenerateHmacKey => 0x5a
  | CommandType.GenerateWrapKey => 0x5b
  | CommandType.VerifyHmac => 0x5c
  | CommandType.SshCertify => 0x5d
  | CommandType.PutTemplate => 0x5e
  | CommandType.GetTemplate => 0x5f
  | CommandType.OtpDecrypt => 0x60
  | CommandType.OtpAeadCreate => 0x61
  | CommandType.OtpAeadRandom => 0x62
  | CommandType.OtpAeadRewrap => 0x63
  | CommandType.AttestAsymmetric => 0x64
  | CommandType.PutOtpAeadKey => 0x65
  | CommandType.GenerateOtpAeadKey => 0x66
  | CommandType.SetLogIndex => 0x67
  | CommandType.WrapData => 0x68
  | CommandType.UnwrapData => 0x69
  | CommandType.SignEddsa => 0x6a
  | CommandType.Blink => 0x6b
  | CommandType.Error => 0x7f

/-- `impl From<Command> for u8` (lines 966-974): a request is its opcode, a
response is its opcode with the top bit or-ed in, and `Unknown` is written
as the `Error` opcode. -/
def Command.toU8 : Command → Nat
  | Command.Request ty => ty.opcode
  | Command.Response ty => ty.opcode ||| 0x80
  | Command.Unknown => CommandType.opcode CommandType.Error

/-- The arms of `impl<T: Into<u32>> From<T> for Command` (lines 847-964), in
source order: the 51 request constants (`Error` has no request arm), the 51
response constants (each the request constant with `0x80` or-ed in, per the
`yubihsm-sys` bindings' `_R` constants), and `YHC_ERROR` (`0x7f`) decoding to
`Response(Error)`. -/
def cmdTable : List (Nat × Command) :=
  [(0x01, Command.Request CommandType.Echo),
   (0x03, Command.Request CommandType.CreateSession),
   (0x04, Command.Request CommandType.AuthSession),
   (0x05, Command.Request CommandType.SessionMessage),
   (0x06, Command.Request CommandType.GetDeviceInfo),
   (0x07, Command.Request CommandType.Bsl),
   (0x08, Command.Request CommandType.Reset),
   (0x40, Command.Request CommandType.CloseSession),
   (0x41, Command.Request CommandType.StorageStatistics),
   (0x42, Command.Request CommandType.PutOpaque),
   (0x43, Command.Request CommandType.GetOpaque),
   (0x44, Command.Request CommandType.PutAuthKey),
   (0x45, Command.Request CommandType.PutAsymmetricKey),
   (0x46, Command.Request CommandType.GenerateAsymmetricKey),
   (0x47, Command.Request CommandType.SignPkcs1),
   (0x48, Command.Request CommandType.ListObjects),
   (0x49, Command.Request CommandType.DecryptPkcs1),
   (0x4a, Command.Request CommandType.ExportWrapped),
   (0x4b, Command.Request CommandType.ImportWrapped),
   (0x4c, Command.Request CommandType.PutWrapKey),
   (0x4d, Command.Request CommandType.GetLogs),
   (0x4e, Command.Request CommandType.GetObjectInfo),
   (0x4f, Command.Request CommandType.PutOption),
   (0x50, Command.Request CommandType.GetOption),
   (0x51, Command.Request CommandType.GetPsuedoRandom),
   (0x52, Command.Request CommandType.PutHmacKey),
   (0x53, Command.Request CommandType.HmacData),
   (0x54, Command.Request CommandType.GetPubkey),
   (0x55, Command.Request CommandType.SignPss),
   (0x56, Command.Request CommandType.SignEcdsa),
   (0x57, Command.Request CommandType.DecryptEcdh),
   (0x58, Command.Request CommandType.DeleteObject),
   (0x59, Command.Request CommandType.DecryptOaep),
   (0x5a, Command.Request CommandType.GenerateHmacKey),
   (0x5b, Command.Request CommandType.GenerateWrapKey),
   (0x5c, Command.Request CommandType.VerifyHmac),
   (0x5d, Command.Request CommandType.SshCertify),
   (0x5e, Command.Request CommandType.PutTemplate),
   (0x5f, Command.Request CommandType.GetTemplate),
   (0x60, Command.Request CommandType.OtpDecrypt),
   (0x61, Command.Request CommandType.OtpAeadCreate),
   (0x62, Command.Request CommandType.OtpAeadRandom),
   (0x63, Command.Request CommandType.OtpAeadRewrap),
   (0x64, Command.Request CommandType.AttestAsymmetric),
   (0x65, Command.Request CommandType.PutOtpAeadKey),
   (0x66, Command.Request CommandType.GenerateOtpAeadKey),
   (0x67, Command.Request CommandType.SetLogIndex),
   (0x68, Command.Request CommandType.WrapData),
   (0x69, Command.Request CommandType.UnwrapData),
   (0x6a, Command.Request CommandType.SignEddsa),
   (0x6b, Command.Request CommandType.Blink),
   (0x81, Command.Response CommandType.Echo),
   (0x83, Command.Response CommandType.CreateSession),
   (0x84, Command.Response CommandType.AuthSession),
   (0x85, Command.Response CommandType.SessionMessage),
   (0x86, Command.Response CommandType.GetDeviceInfo),
   (0x87, Command.Response CommandType.Bsl),
   (0x88, Command.Response CommandType.Reset),
   (0xc0, Command.Response CommandType.CloseSession),
   (0xc1, Command.Response CommandType.StorageStatistics),
   (0xc2, Command.Response CommandType.PutOpaque),
   (0xc3, Command.Response CommandType.GetOpaque),
   (0xc4, Command.Response CommandType.PutAuthKey),
   (0xc5, Command.Response CommandType.PutAsymmetricKey),
   (0xc6, Command.Response CommandType.GenerateAsymmetricKey),
   (0xc7, Command.Response CommandType.SignPkcs1),
   (0xc8, Command.Response CommandType.ListObjects),
   (0xc9, Command.Response CommandType.DecryptPkcs1),
   (0xca, Command.Response CommandType.ExportWrapped),
   (0xcb, Command.Response CommandType.ImportWrapped),
   (0xcc, Command.Response CommandType.PutWrapKey),
   (0xcd, Command.Response CommandType.GetLogs),
   (0xce, Command.Response CommandType.GetObjectInfo),
   (0xcf, Command.Response CommandType.PutOption),
   (0xd0, Command.Response CommandType.GetOption),
   (0xd1, Command.Response CommandType.GetPsuedoRandom),
   (0xd2, Command.Response CommandType.PutHmacKey),
   (0xd3, Command.Response CommandType.HmacData),
   (0xd4, Command.Response CommandType.GetPubkey),
   (0xd5, Command.Response CommandType.SignPss),
   (0xd6, Command.Response CommandType.SignEcdsa),
   (0xd7, Command.Response CommandType.DecryptEcdh),
   (0xd8, Command.Response CommandType.DeleteObject),
   (0xd9, Command.Response CommandType.DecryptOaep),
   (0xda, Command.Response CommandType.GenerateHmacKey),
   (0xdb, Command.Response CommandType.GenerateWrapKey),
   (0xdc, Command.Response CommandType.VerifyHmac),
   (0xdd, Command.Response CommandType.SshCertify),
   (0xde, Command.Response CommandType.PutTemplate),
   (0xdf, Command.Response CommandType.GetTemplate),
   (0xe0, Command.Response CommandType.OtpDecrypt),
   (0xe1, Command.Response CommandType.OtpAeadCreate),
   (0xe2, Command.Response CommandType.OtpAeadRandom),
   (0xe3, Command.Response CommandType.OtpAeadRewrap),
   (0xe4, Command.Response CommandType.AttestAsymmetric),
   (0xe5, Command.Response CommandType.PutOtpAeadKey),
   (0xe6, Command.Response CommandType.GenerateOtpAeadKey),
   (0xe7, Command.Response CommandType.SetLogIndex),
   (0xe8, Command.Response CommandType.WrapData),
   (0xe9, Command.Response CommandType.UnwrapData),
   (0xea, Command.Response CommandType.SignEddsa),
   (0xeb, Command.Response CommandType.Blink),
   (0x7f, Command.Response CommandType.Error)]

/-- `impl<T: Into<u32>> From<T> for Command` (lines 847-964): the wildcard
arm yields `Command::Unknown`. -/
def Command.fromNum (cmd : Nat) : Command :=
  (chainLookup cmdTable cmd).getD Command.Unknown

/-- C2: for every command type, the wire byte of a request is the opcode,
the wire byte of a response is the opcode with the top bit or-ed in, and
every opcode is strictly below `0x80`. -/
theorem command_opcode_encoding :
    ∀ ty : CommandType,
      Command.toU8 (Command.Request ty) = ty.opcode ∧
        Command.toU8 (Command.Response ty) = ty.opcode ||| 0x80 ∧
        ty.opcode < 0x80 := by
  intro ty
  refine ⟨rfl, rfl, ?_⟩
  cases ty <;> decide

/-- C10: `Command::Unknown` encodes to the `Error` opcode — the same byte as
`Command::Request(CommandType::Error)` — so the encoding is not injective,
and decoding that byte yields `Command::Response(CommandType::Error)`, not
`Command::Unknown`: the `Unknown` variant does not round-trip through the
wire byte. -/
theorem command_unknown_no_roundtrip :
    Command.toU8 Command.Unknown = CommandType.opcode CommandType.Error ∧
      Command.toU8 Command.Unknown =
        Command.toU8 (Command.Request CommandType.Error) ∧
      Command.fromNum (Command.toU8 Command.Unknown) =
        Command.Response CommandType.Error ∧
      Command.Response CommandType.Error ≠ Command.Unknown :=
  ⟨rfl, rfl, by decide, fun h => Command.noConfusion h⟩

/-! ## Log entries (`src/src/types.rs` lines 989-1047) -/

/-- The `LogEntry` struct (lines 989-1000); bytes as `Nat`. -/
structure LogEntry where
  index : Nat
  command : Command
  data_length : Nat
  session_key : Nat
  target_key : Nat
  second_key : Nat
  result : Command
  systick : Nat
  digest : List Nat
  deriving DecidableEq, Repr

/-- The raw `yh_log_entry` record of the bindings (the wire form): `command`
and `result` are single opcode bytes. -/
structure yh_log_entry where
  number : Nat
  command : Nat
  length : Nat
  session_key : Nat
  target_key : Nat
  second_key : Nat
  result : Nat
  systick : Nat
  digest : List Nat
  deriving DecidableEq, Repr

/-- Modelled from the spec: `YH_LOG_DIGEST_SIZE` of the `yubihsm-sys`
bindings is not among the given source files; the spec fixes the log-entry
digest as a fixed-size byte array, "typically 16 bytes". -/
def YH_LOG_DIGEST_SIZE : Nat := 16

/-- `impl From<LogEntry> for yh_log_entry` (lines 1024-1047). The source
clones the digest, appends `[0; DIGEST_SIZE]` (a full block of
`DIGEST_SIZE` zeros) whenever the digest is shorter than `DIGEST_SIZE`,
and then builds the wire digest as `[digest_vec.remove(0); DIGEST_SIZE]` —
Rust array-repeat syntax, which evaluates `remove(0)` once (taking the
first byte out; a panic, modelled `none`, if the vector were empty — it
cannot be after the padding) and repeats that one byte `DIGEST_SIZE`
times. The `command` and `result` bytes of the record are written as
literal `0`. -/
def LogEntry.toYh (entry : LogEntry) : Option yh_log_entry :=
  let digest_vec := entry.digest
  let digest_vec :=
    if digest_vec.length < YH_LOG_DIGEST_SIZE then
      digest_vec ++ List.replicate YH_LOG_DIGEST_SIZE 0
    else digest_vec
  match digest_vec with
  | [] => none
  | d0 :: _ =>
    some { number := entry.index
           command := 0
           length := entry.data_length
           session_key := entry.session_key
           target_key := entry.target_key
           second_key := entry.second_key
           result := 0
           systick := entry.systick
           digest := List.replicate YH_LOG_DIGEST_SIZE d0 }

/-- A concrete log entry with the short digest `[1, 2, 3]`, for the C7
counterexample. -/
def logEntryShortDigest : LogEntry :=
  { index := 9
    command := Command.Request CommandType.Echo
    data_length := 4
    session_key := 5
    target_key := 6
    second_key := 7
    result := Command.Response CommandType.Echo
    systick := 8
    digest := [1, 2, 3] }

/-- Counterexample to C7 as stated: re-encoding an entry whose digest is the
short list `[1, 2, 3]` produces a wire digest of sixteen copies of `1` — the
digest's first byte is *kept* (it is the only byte used), not "removed and
discarded": the byte `1` fills the output while the remaining bytes `2`, `3`
are the ones dropped. -/
theorem logentry_short_digest_counterexample :
    (LogEntry.toYh logEntryShortDigest).map yh_log_entry.digest =
        some (List.replicate 16 1) ∧
      1 ∈ List.replicate 16 1 ∧ (2 : Nat) ∉ List.replicate 16 1 :=
  ⟨rfl, by decide, by decide⟩

/-- C7 amended: re-encoding a `LogEntry` writes the command and result bytes
as literal zero regardless of the entry's `command` and `result` fields,
preserves the index, data-length, session-key, target-key, second-key and
systick fields unchanged, and handles the digest by appending
`YH_LOG_DIGEST_SIZE` zero bytes when it is shorter than `YH_LOG_DIGEST_SIZE`
and then filling the wire digest with `YH_LOG_DIGEST_SIZE` copies of the
(possibly padded) digest's first byte, discarding every other digest
byte. -/
theorem logentry_reencode_fields :
    ∀ e : LogEntry,
      LogEntry.toYh e =
        some { number := e.index
               command := 0
               length := e.data_length
               session_key := e.session_key
               target_key := e.target_key
               second_key := e.second_key
               result := 0
               systick := e.systick
               digest := List.replicate YH_LOG_DIGEST_SIZE
                 ((if e.digest.length < YH_LOG_DIGEST_SIZE then
                     e.digest ++ List.replicate YH_LOG_DIGEST_SIZE 0
                   else e.digest).headD 0) } := by
  intro e
  unfold LogEntry.toYh
  by_cases h : e.digest.length < YH_LOG_DIGEST_SIZE
  · simp only [if_pos h]
    cases hd : e.digest with
    | nil => rfl
    | cons d rest => simp
  · simp only [if_neg h]
    cases hd : e.digest with
    | nil =>
        exfalso
        apply h
        rw [hd]
        decide
    | cons d rest => simp

/-! ## Object descriptors (`src/src/types.rs` lines 1049-1091) -/

/-- The `ObjectInfo` struct (lines 1049-1062); the private unit field
`_priv` is omitted. -/
structure ObjectInfo where
  capabilities : List Capability
  id : Nat
  length : Nat
  domains : List Nat
  object_type : ObjectType
  algorithm : Option Algorithm
  sequence : Nat
  origin : Nat
  label : String
  delegated_capabilities : List Capability
  deriving DecidableEq, Repr

/-- The raw `yh_object_descriptor` of the bindings, as observed by
`ObjectInfo::try_from_yh_object_descriptor`. Its two opaque
`yh_capabilities` blobs are reached only through the provider call
`yh_num_to_capabilities`, so each is modelled by that call's outcome for the
blob (status code and returned names, as in
`Capability.tryFromYhCapabilities`); the fixed-size NUL-terminated `label`
buffer is read with a lossy UTF-8 conversion that cannot fail and is
modelled by the resulting string. -/
structure yh_object_descriptor where
  capabilities_rc : Int
  capabilities_names : List (Option String)
  id : Nat
  len : Nat
  domains : Nat
  type_ : Nat
  algorithm : Nat
  sequence : Nat
  origin : Nat
  label : String
  delegated_rc : Int
  delegated_names : List (Option String)

/-- `ObjectInfo::try_from_yh_object_descriptor` (lines 1064-1091), with the
struct literal's field initializers evaluated in source order: the
capability translation (its `?` propagating a recoverable error), the plain
fields, `ObjectType::from` and `Algorithm::from` (each able to `panic!`,
the outer `none`; an algorithm code of 0 becomes an absent algorithm before
`Algorithm::from` is reached), the lossy label read, and the delegated
capability translation (again with `?`). -/
def ObjectInfo.tryFrom (o : yh_object_descriptor) :
    Option (Except String ObjectInfo) :=
  match Capability.tryFromYhCapabilities o.capabilities_rc o.capabilities_names with
  | none => none
  | some (Except.error e) => some (Except.error e)
  | some (Except.ok caps) =>
    match ObjectType.fromYh o.type_ with
    | none => none
    | some ty =>
      match (if o.algorithm = 0 then some none
             else (Algorithm.fromYh o.algorithm).map some) with
      | none => none
      | some alg =>
        match Capability.tryFromYhCapabilities o.delegated_rc o.delegated_names with
        | none => none
        | some (Except.error e) => some (Except.error e)
        | some (Except.ok dcaps) =>
          some (Except.ok
            { capabilities := caps
              id := o.id
              length := o.len
              domains := domainsFromParam o.domains
              object_type := ty
              algorithm := alg
              sequence := o.sequence
              origin := o.origin
              label := o.label
              delegated_capabilities := dcaps })

/-- C8: when the descriptor decode succeeds, an algorithm code of 0 has been
mapped to an absent algorithm and a nonzero code to `some` of the matching
variant; and a failed capability translation (for either capability field)
aborts the whole decode with that error — no partially-populated descriptor
is returned. -/
theorem objectinfo_decode_algorithm_and_errors :
    ∀ o : yh_object_descriptor,
      (∀ info : ObjectInfo, ObjectInfo.tryFrom o = some (Except.ok info) →
          (o.algorithm = 0 → info.algorithm = none) ∧
            (o.algorithm ≠ 0 →
              ∃ a, Algorithm.fromYh o.algorithm = some a ∧
                info.algorithm = some a)) ∧
        (∀ e, Capability.tryFromYhCapabilities o.capabilities_rc
              o.capabilities_names = some (Except.error e) →
            ObjectInfo.tryFrom o = some (Except.error e)) ∧
        ∀ caps ty alg e,
          Capability.tryFromYhCapabilities o.capabilities_rc
              o.capabilities_names = some (Except.ok caps) →
            ObjectType.fromYh o.type_ = some ty →
            (if o.algorithm = 0 then some none
             else (Algorithm.fromYh o.algorithm).map some) = some alg →
            Capability.tryFromYhCapabilities o.delegated_rc
                o.delegated_names = some (Except.error e) →
            ObjectInfo.tryFrom o = some (Except.error e) := by
  intro o
  refine ⟨?_, ?_, ?_⟩
  · intro info hinfo
    unfold ObjectInfo.tryFrom at hinfo
    repeat' split at hinfo
    any_goals exact Option.noConfusion hinfo
    any_goals simp at hinfo
    rename_i alg halg hdel1 hdel2 hdel3
    subst hinfo
    constructor
    · intro hz
      rw [if_pos hz] at halg
      injection halg with h7
      exact h7.symm
    · intro hnz
      rw [if_neg hnz] at halg
      cases ha : Algorithm.fromYh o.algorithm with
      | none => rw [ha] at halg; exact Option.noConfusion halg
      | some a =>
          rw [ha] at halg
          injection halg with h7
          exact ⟨a, rfl, h7.symm⟩
  · intro e he
    unfold ObjectInfo.tryFrom
    rw [he]
  · intro caps ty alg e h1 h2 h3 h4
    unfold ObjectInfo.tryFrom
    rw [h1, h2, h3, h4]

/-- A descriptor whose two capability translations succeed (one `audit`
name, no delegated names), with object type code 3, algorithm code 12 and
domain mask `0b101`. -/
def descOk : yh_object_descriptor :=
  { capabilities_rc := 0
    capabilities_names := [some "audit"]
    id := 1
    len := 2
    domains := 5
    type_ := 3
    algorithm := 12
    sequence := 4
    origin := 2
    label := "test-key"
    delegated_rc := 0
    delegated_names := [] }

/-- `descOk` with algorithm code 0 (absent algorithm). -/
def descZeroAlg : yh_object_descriptor :=
  { descOk with algorithm := 0 }

/-- `descOk` with a failing capability translation (buffer too small). -/
def descBadCaps : yh_object_descriptor :=
  { descOk with capabilities_rc := -7 }

/-- `descOk` with a failing delegated-capability translation. -/
def descBadDeleg : yh_object_descriptor :=
  { descOk with delegated_rc := -7 }

/-- The descriptor `descOk` decoded. -/
def infoOk : ObjectInfo :=
  { capabilities := [Capability.Audit]
    id := 1
    length := 2
    domains := [1, 3]
    object_type := ObjectType.HmacKey
    algorithm := some Algorithm.EcP256
    sequence := 4
    origin := 2
    label := "test-key"
    delegated_capabilities := [] }

/-- The descriptor `descZeroAlg` decoded: no algorithm. -/
def infoZeroAlg : ObjectInfo :=
  { infoOk with algorithm := none }

/-- Witness for C8 at concrete descriptors: a nonzero algorithm code decodes
to the matching variant, code 0 decodes to an absent algorithm, and a failed
capability translation (first or delegated) aborts the decode with that
error. -/
theorem objectinfo_decode_witness :
    (∃ a, Algorithm.fromYh descOk.algorithm = some a ∧
        infoOk.algorithm = some a) ∧
      infoZeroAlg.algorithm = none ∧
      ObjectInfo.tryFrom descBadCaps =
        some (Except.error "yh_num_to_capabilities failed") ∧
      ObjectInfo.tryFrom descBadDeleg =
        some (Except.error "yh_num_to_capabilities failed") :=
  ⟨((objectinfo_decode_algorithm_and_errors descOk).1 infoOk rfl).2 (by decide),
   ((objectinfo_decode_algorithm_and_errors descZeroAlg).1 infoZeroAlg rfl).1 rfl,
   (objectinfo_decode_algorithm_and_errors descBadCaps).2.1
     "yh_num_to_capabilities failed" rfl,
   (objectinfo_decode_algorithm_and_errors descBadDeleg).2.2
     [Capability.Audit] ObjectType.HmacKey (some Algorithm.EcP256)
     "yh_num_to_capabilities failed" rfl rfl rfl rfl⟩

end Yubihsm
